import Mathlib

/-!
Verification of the Country-Specific User Ranking Dashboard.

The development shallowly embeds the two Python sources:
* `scripts/dashboard.py` — the filter/transform pipeline behind the Dash
  table callback (`get_filtered_data`, `update_table`, the unique-value
  enumerators);
* `scripts/upload_metadata.py` — the ETL step of `KaggleDataProcessor`
  (`load_data`'s dropna and `process_data`'s merge/Profile derivation).

A pandas DataFrame of joined records is embedded as a `List Record`; a cell
of the rendered DataTable is a `CellVal` (string, number, or missing/NaN).
-/

namespace CountryRanking

/-- A cell of the rendered table: a string, a number, or a missing value
(pandas NaN serialised to the table as null). -/
inductive CellVal where
  | str (s : String)
  | nat (n : Nat)
  | null
  deriving DecidableEq, Repr

/-- One row of the loaded parquet table `conf/records.parquet`, following the
schema produced by `upload_metadata.py` (`Id:uint32, UserName, DisplayName,
PerformanceTier:uint8, Country:string?, UserId:uint32, AchievementType,
Tier:uint8, CurrentRanking:uint16, HighestRanking:uint16, TotalGold,
TotalSilver, TotalBronze:uint16, Profile:string`).  `Country` is nullable;
the medal counts and `Profile` are kept optional because `update_table`
defensively applies `fillna(0)` and `pd.notna` to them. -/
structure Record where
  id : Nat
  userName : String
  displayName : String
  performanceTier : Nat
  country : Option String
  userId : Nat
  achievementType : String
  tier : Nat
  currentRanking : Nat
  highestRanking : Nat
  totalGold : Option Nat
  totalSilver : Option Nat
  totalBronze : Option Nat
  profile : Option String
  deriving DecidableEq, Repr

/-- One output row of the DataTable, projected to the eight displayed
columns (`No., DisplayName, CurrentRanking, HighestRanking, Country, Tier,
Medals, Profile`). -/
structure DisplayRow where
  no : CellVal
  displayName : CellVal
  currentRanking : CellVal
  highestRanking : CellVal
  country : CellVal
  tier : CellVal
  medals : CellVal
  profile : CellVal
  deriving DecidableEq, Repr

/-- `get_filtered_data(data, selected_country, selected_achievement_type)`
from `dashboard.py`.  The Python code starts from `data.copy()` (identity on
the value level) and applies each filter only when the selection is truthy,
i.e. neither `None` nor the empty string; the pandas `==` comparison against
a NaN `Country` is false, which `r.country = some c` reproduces. -/
def get_filtered_data (data : List Record)
    (selected_country selected_achievement_type : Option String) :
    List Record :=
  let d1 :=
    match selected_country with
    | none => data
    | some c => if c = "" then data else
        data.filter (fun r => decide (r.country = some c))
  match selected_achievement_type with
  | none => d1
  | some a => if a = "" then d1 else
      d1.filter (fun r => decide (r.achievementType = a))

/-- The sort key relation of `filtered_data.sort_values(by='CurrentRanking',
ascending=True)`. -/
def rankLE (a b : Record) : Prop :=
  a.currentRanking ≤ b.currentRanking

instance : DecidableRel rankLE :=
  fun a b => Nat.decLe a.currentRanking b.currentRanking

instance : IsTotal Record rankLE :=
  ⟨fun a b => Nat.le_total a.currentRanking b.currentRanking⟩

instance : IsTrans Record rankLE :=
  ⟨fun _ _ _ => Nat.le_trans⟩

/-- `sort_values(by='CurrentRanking', ascending=True)` from `update_table`.
pandas uses its default sort kind here, which fixes no particular order on
ties; the embedding picks one concrete sorted rearrangement (insertion
sort).  Every property proved below about the sorted output depends only on
sortedness and on the multiset of rows, not on the tie order. -/
def sortByCurrentRanking (l : List Record) : List Record :=
  l.insertionSort rankLE

/-- The tier relabelling `filtered_data['Tier'].replace(tier_mapping)` with
`tier_mapping = {0: "Novice", 1: "Contributor", 2: "Expert", 3: "Master",
4: "Grandmaster"}`; `replace` leaves values outside the mapping unchanged. -/
def tierLabel : Nat → CellVal
  | 0 => CellVal.str "Novice"
  | 1 => CellVal.str "Contributor"
  | 2 => CellVal.str "Expert"
  | 3 => CellVal.str "Master"
  | 4 => CellVal.str "Grandmaster"
  | n => CellVal.nat n

/-- The `Medals` display string of `update_table`:
`"🏅 " + gold + " " + "🥈 " + silver + " " + "🥉 " + bronze`. -/
def medalsString (g s b : Nat) : String :=
  "🏅 " ++ toString g ++ " " ++ "🥈 " ++ toString s ++ " " ++ "🥉 " ++ toString b

/-- The `Profile` markdown link of `update_table`: `[View Profile](url)`
when the profile URL is present (`pd.notna`), `"N/A"` otherwise. -/
def profileCell : Option String → CellVal
  | some url => CellVal.str ("[View Profile](" ++ url ++ ")")
  | none => CellVal.str "N/A"

/-- One row of `update_table`'s non-empty output: the record at 0-based
position `idx` of the sorted frame, with `No. = idx + 1`, the medal counts
normalised by `fillna(0)`, the tier relabelled and the profile linked. -/
def mkDisplayRow (idx : Nat) (r : Record) : DisplayRow where
  no := CellVal.nat (idx + 1)
  displayName := CellVal.str r.displayName
  currentRanking := CellVal.nat r.currentRanking
  highestRanking := CellVal.nat r.highestRanking
  country :=
    match r.country with
    | some c => CellVal.str c
    | none => CellVal.null
  tier := tierLabel r.tier
  medals := CellVal.str
    (medalsString (r.totalGold.getD 0) (r.totalSilver.getD 0) (r.totalBronze.getD 0))
  profile := profileCell r.profile

/-- Row construction over the whole sorted frame, threading the 0-based
index produced by `reset_index(drop=True)`. -/
def numberRows : Nat → List Record → List DisplayRow
  | _, [] => []
  | i, r :: rs => mkDisplayRow i r :: numberRows (i + 1) rs

/-- The sentinel row `update_table` returns when the filtered frame is
empty.  Note the source places the string `'No Data'` — not `'N/A'` — in
the `DisplayName` field. -/
def sentinelRow : DisplayRow where
  no := CellVal.str "N/A"
  displayName := CellVal.str "No Data"
  currentRanking := CellVal.str "N/A"
  highestRanking := CellVal.str "N/A"
  country := CellVal.str "N/A"
  tier := CellVal.str "N/A"
  medals := CellVal.str "N/A"
  profile := CellVal.str "N/A"

/-- `update_table(selected_country, selected_achievement_type)` from
`dashboard.py`: filter, then either the sentinel row (empty frame) or the
sorted, numbered, formatted projection to the eight display columns. -/
def update_table (data : List Record)
    (selected_country selected_achievement_type : Option String) :
    List DisplayRow :=
  let filtered := get_filtered_data data selected_country selected_achievement_type
  if filtered = [] then [sentinelRow]
  else numberRows 0 (sortByCurrentRanking filtered)

/-- `get_unique_countries(data)` from `dashboard.py`: the distinct non-null
values of the `Country` column, sorted.  `Series.unique` drops duplicates,
the comprehension drops NaN, `sorted` orders the rest; since the result is
sorted, the distinct-extraction order is immaterial. -/
def get_unique_countries (data : List Record) : List String :=
  ((data.map Record.country).dedup.filterMap id).mergeSort
    (fun a b => decide (a ≤ b))

/-- `get_unique_achievement_types(data)` from `dashboard.py`: the distinct
values of the (non-null) `AchievementType` column, sorted. -/
def get_unique_achievement_types (data : List Record) : List String :=
  (data.map Record.achievementType).dedup.mergeSort (fun a b => decide (a ≤ b))

/-- The state a dashboard session carries between callback invocations: the
table loaded once at process start.  `update_table` closes over it. -/
structure DashState where
  data : List Record
  deriving DecidableEq, Repr

/-- One callback invocation as a state transformer.  In the source every
write of `update_table` targets `filtered_data`, which `get_filtered_data`
initialises as `data.copy()`; the loaded table the state carries is
therefore returned untouched. -/
def update_table_invoke (st : DashState)
    (selected_country selected_achievement_type : Option String) :
    List DisplayRow × DashState :=
  (update_table st.data selected_country selected_achievement_type, st)

/-- A whole session: any sequence of callback invocations with arbitrary
filter selections, threading the state. -/
def renderSession (st : DashState) :
    List (Option String × Option String) → DashState
  | [] => st
  | s :: rest => renderSession (update_table_invoke st s.1 s.2).2 rest

/-- One row of `Users.csv` as read by `KaggleDataProcessor.load_data`
(columns `Id, UserName, DisplayName, PerformanceTier, Country`). -/
structure UserRow where
  id : Nat
  userName : String
  displayName : String
  performanceTier : Nat
  country : Option String
  deriving DecidableEq, Repr

/-- One row of `UserAchievements.csv` as read by `load_data` (columns
`UserId, AchievementType, Tier, CurrentRanking, HighestRanking, TotalGold,
TotalSilver, TotalBronze`).  The two ranking columns are nullable; `none`
embeds a NaN cell. -/
structure AchievementRow where
  userId : Nat
  achievementType : String
  tier : Nat
  currentRanking : Option Nat
  highestRanking : Option Nat
  totalGold : Nat
  totalSilver : Nat
  totalBronze : Nat
  deriving DecidableEq, Repr

/-- The `dropna(subset=['CurrentRanking', 'HighestRanking'])` call of
`load_data`.  pandas `dropna` defaults to `how='any'`: a row is dropped as
soon as either subset column is NaN. -/
def dropnaRankings (l : List AchievementRow) : List AchievementRow :=
  l.filter (fun a => a.currentRanking.isSome && a.highestRanking.isSome)

/-- One merged record of `KaggleDataProcessor.process_data`: the user row
and achievement row agreeing on `Id == UserId`, with
`Profile = "https://www.kaggle.com/" + UserName` and the ranking columns
cast to integers (`astype("uint16")`; after the dropna both are present,
`getD 0` is never exercised on the retained rows). -/
def mkJoined (u : UserRow) (a : AchievementRow) : Record where
  id := u.id
  userName := u.userName
  displayName := u.displayName
  performanceTier := u.performanceTier
  country := u.country
  userId := a.userId
  achievementType := a.achievementType
  tier := a.tier
  currentRanking := a.currentRanking.getD 0
  highestRanking := a.highestRanking.getD 0
  totalGold := some a.totalGold
  totalSilver := some a.totalSilver
  totalBronze := some a.totalBronze
  profile := some ("https://www.kaggle.com/" ++ u.userName)

/-- `pd.merge(users, achievements, left_on="Id", right_on="UserId")` of
`process_data`: the inner join, left-row order preserved. -/
def process_data (users : List UserRow) (achs : List AchievementRow) :
    List Record :=
  users.flatMap (fun u =>
    (achs.filter (fun a => decide (a.userId = u.id))).map (mkJoined u))

/-- The ETL pipeline on already-downloaded CSV rows: `load_data`'s dropna
followed by `process_data`'s join. -/
def load_process (users : List UserRow) (achs : List AchievementRow) :
    List Record :=
  process_data users (dropnaRankings achs)

/-- Comparison of two rendered `CurrentRanking` cells: both numeric and
ascending. -/
def cellLE : CellVal → CellVal → Prop
  | CellVal.nat m, CellVal.nat n => m ≤ n
  | _, _ => False

/-- Sample record: a ranked competitions user from the US. -/
def recAlice : Record where
  id := 1
  userName := "alice"
  displayName := "Alice"
  performanceTier := 2
  country := some "US"
  userId := 1
  achievementType := "Competitions"
  tier := 2
  currentRanking := 50
  highestRanking := 40
  totalGold := some 3
  totalSilver := some 0
  totalBronze := none
  profile := some "https://www.kaggle.com/alice"

/-- Sample record: no country, an out-of-range tier, no profile URL. -/
def recBob : Record :=
  { recAlice with
    id := 2
    userName := "bob"
    displayName := "Bob"
    currentRanking := 10
    tier := 9
    profile := none
    country := none }

/-- Sample record: a second US user, ranked between the other two. -/
def recCarol : Record :=
  { recAlice with
    id := 3
    userName := "carol"
    displayName := "Carol"
    currentRanking := 30
    tier := 0 }

/-- A small concrete table used to instantiate the theorems below. -/
def exTable : List Record := [recAlice, recBob, recCarol]

/-- Sample `Users.csv` row. -/
def uAlice : UserRow where
  id := 1
  userName := "alice"
  displayName := "Alice"
  performanceTier := 2
  country := some "US"

/-- Sample achievement row carrying both ranking values. -/
def achBoth : AchievementRow where
  userId := 1
  achievementType := "Competitions"
  tier := 2
  currentRanking := some 50
  highestRanking := some 40
  totalGold := 3
  totalSilver := 0
  totalBronze := 0

/-- Sample achievement row with a `CurrentRanking` but a NaN
`HighestRanking`. -/
def achNoHighest : AchievementRow :=
  { achBoth with currentRanking := some 5, highestRanking := none }

/-! ## Helper lemmas -/

/-- Membership in the filtered frame, unfolded into the two filter
conditions of `get_filtered_data`. -/
theorem mem_get_filtered_iff (data : List Record) (selC selA : Option String)
    (r : Record) :
    r ∈ get_filtered_data data selC selA ↔
      r ∈ data
        ∧ (selC = none ∨ selC = some "" ∨ r.country = selC)
        ∧ (selA = none ∨ selA = some "" ∨ some r.achievementType = selA) := by
  simp only [get_filtered_data]
  cases selC with
  | none =>
    cases selA with
    | none => simp
    | some a =>
      by_cases ha : a = ""
      · subst ha; simp
      · simp [ha, List.mem_filter]
  | some c =>
    by_cases hc : c = ""
    · subst hc
      cases selA with
      | none => simp
      | some a =>
        by_cases ha : a = ""
        · subst ha; simp
        · simp [ha, List.mem_filter]
    · cases selA with
      | none => simp [hc, List.mem_filter]
      | some a =>
        by_cases ha : a = ""
        · subst ha; simp [hc, List.mem_filter]
        · simp only [List.mem_filter, decide_eq_true_eq, if_neg hc, if_neg ha]
          constructor
          · rintro ⟨⟨hd, hcy⟩, hay⟩
            exact ⟨hd, Or.inr (Or.inr hcy), Or.inr (Or.inr (congrArg some hay))⟩
          · rintro ⟨hd, hcy, hay⟩
            refine ⟨⟨hd, ?_⟩, ?_⟩
            · rcases hcy with h | h | h
              · exact Option.noConfusion h
              · exact absurd (Option.some.inj h) hc
              · exact h
            · rcases hay with h | h | h
              · exact Option.noConfusion h
              · exact absurd (Option.some.inj h) ha
              · exact Option.some.inj h

/-- On an empty filtered frame `update_table` takes the sentinel branch. -/
theorem update_table_of_empty (data : List Record) (selC selA : Option String)
    (h : get_filtered_data data selC selA = []) :
    update_table data selC selA = [sentinelRow] := by
  simp only [update_table]
  rw [if_pos h]

/-- On a non-empty filtered frame `update_table` sorts, numbers and formats
the rows. -/
theorem update_table_of_nonempty (data : List Record)
    (selC selA : Option String) (h : get_filtered_data data selC selA ≠ []) :
    update_table data selC selA
      = numberRows 0 (sortByCurrentRanking (get_filtered_data data selC selA)) := by
  simp only [update_table]
  rw [if_neg h]

/-- The sorted frame is sorted with respect to the ranking key. -/
theorem sorted_sortByCurrentRanking (l : List Record) :
    List.Sorted rankLE (sortByCurrentRanking l) :=
  List.sorted_insertionSort rankLE l

/-- Sorting permutes the frame: membership is preserved. -/
theorem mem_sortByCurrentRanking {r : Record} {l : List Record} :
    r ∈ sortByCurrentRanking l ↔ r ∈ l :=
  List.mem_insertionSort rankLE

/-- `numberRows` preserves the number of rows. -/
theorem numberRows_length (l : List Record) :
    ∀ i : Nat, (numberRows i l).length = l.length := by
  induction l with
  | nil => intro i; rfl
  | cons r rs ih =>
    intro i
    simp [numberRows, ih (i + 1)]

/-- Projecting an index-independent field out of `numberRows` is mapping the
underlying per-record formatter over the frame. -/
theorem numberRows_map {β : Type} (f : DisplayRow → β) (g : Record → β)
    (hfg : ∀ i r, f (mkDisplayRow i r) = g r) (l : List Record) :
    ∀ i : Nat, (numberRows i l).map f = l.map g := by
  induction l with
  | nil => intro i; rfl
  | cons r rs ih =>
    intro i
    simp [numberRows, hfg, ih (i + 1)]

/-- The `No.` column of `numberRows i l` is `i+1, i+2, ...` down the rows. -/
theorem numberRows_map_no (l : List Record) :
    ∀ i : Nat, (numberRows i l).map DisplayRow.no
      = (List.range l.length).map (fun k => CellVal.nat (i + k + 1)) := by
  induction l with
  | nil => intro i; rfl
  | cons r rs ih =>
    intro i
    simp only [numberRows, List.map_cons, List.length_cons,
      List.range_succ_eq_map, List.map_map, ih (i + 1)]
    refine congrArg₂ List.cons (by simp [mkDisplayRow]) ?_
    refine List.map_congr_left fun k _ => ?_
    simp only [Function.comp_apply]
    exact congrArg CellVal.nat (by omega)

/-- Every row of `numberRows` is the formatted image of a frame record. -/
theorem mem_numberRows {row : DisplayRow} {l : List Record} {i : Nat}
    (h : row ∈ numberRows i l) : ∃ j r, r ∈ l ∧ row = mkDisplayRow j r := by
  induction l generalizing i with
  | nil => simp [numberRows] at h
  | cons r rs ih =>
    simp only [numberRows, List.mem_cons] at h
    rcases h with h | h
    · exact ⟨i, r, List.mem_cons_self r rs, h⟩
    · obtain ⟨j, r2, hr2, hrow⟩ := ih h
      exact ⟨j, r2, List.mem_cons_of_mem r hr2, hrow⟩

/-- A rendering session never changes the loaded table it carries. -/
theorem renderSession_eq (st : DashState) :
    ∀ sels : List (Option String × Option String), renderSession st sels = st
  | [] => rfl
  | _ :: rest => renderSession_eq st rest

/-! ## Claim theorems -/

/-- Claim C1: a record survives the filter step of the render pipeline
exactly when it is in the table and, for each of the two optional filters,
the filter is absent or empty or the record's field equals the selected
string exactly (no case-folding, no partial match; a missing filter is no
constraint). -/
theorem filter_step_membership (data : List Record) (selC selA : Option String)
    (r : Record) :
    r ∈ get_filtered_data data selC selA ↔
      r ∈ data
        ∧ (selC = none ∨ selC = some "" ∨ r.country = selC)
        ∧ (selA = none ∨ selA = some "" ∨ some r.achievementType = selA) :=
  mem_get_filtered_iff data selC selA r

/-- Claim C2, counterexample: on an empty filtered set `update_table` does
return exactly one sentinel row, but its `DisplayName` field is the string
`"No Data"`, not `"N/A"` as the claim states for all informational
fields. -/
theorem sentinel_displayName_not_NA :
    update_table [] none none = [sentinelRow]
      ∧ sentinelRow.displayName ≠ CellVal.str "N/A" :=
  ⟨rfl, by decide⟩

/-- Claim C2 as amended: whenever the filtered set is empty, `update_table`
returns exactly one sentinel row in which every informational field except
`DisplayName` — `CurrentRanking`, `HighestRanking`, `Country`, `Tier`,
`Medals`, `No.`, `Profile` — is the string `"N/A"`, while `DisplayName` is
the string `"No Data"`. -/
theorem empty_filter_sentinel (data : List Record) (selC selA : Option String)
    (h : get_filtered_data data selC selA = []) :
    update_table data selC selA = [sentinelRow]
      ∧ sentinelRow.displayName = CellVal.str "No Data"
      ∧ sentinelRow.currentRanking = CellVal.str "N/A"
      ∧ sentinelRow.highestRanking = CellVal.str "N/A"
      ∧ sentinelRow.country = CellVal.str "N/A"
      ∧ sentinelRow.tier = CellVal.str "N/A"
      ∧ sentinelRow.medals = CellVal.str "N/A"
      ∧ sentinelRow.no = CellVal.str "N/A"
      ∧ sentinelRow.profile = CellVal.str "N/A" :=
  ⟨update_table_of_empty data selC selA h, rfl, rfl, rfl, rfl, rfl, rfl, rfl, rfl⟩

/-- Witness for the amended claim C2 at the empty table. -/
theorem empty_filter_sentinel_witness :
    update_table [] none none = [sentinelRow]
      ∧ sentinelRow.displayName = CellVal.str "No Data"
      ∧ sentinelRow.currentRanking = CellVal.str "N/A"
      ∧ sentinelRow.highestRanking = CellVal.str "N/A"
      ∧ sentinelRow.country = CellVal.str "N/A"
      ∧ sentinelRow.tier = CellVal.str "N/A"
      ∧ sentinelRow.medals = CellVal.str "N/A"
      ∧ sentinelRow.no = CellVal.str "N/A"
      ∧ sentinelRow.profile = CellVal.str "N/A" :=
  empty_filter_sentinel [] none none rfl

/-- Claim C3: on a non-empty filtered set the output rows are ordered
ascending by `CurrentRanking` — each adjacent pair of rendered ranking
cells is numeric and non-decreasing. -/
theorem output_sorted_by_currentRanking (data : List Record)
    (selC selA : Option String) (h : get_filtered_data data selC selA ≠ []) :
    List.Chain' cellLE
      ((update_table data selC selA).map DisplayRow.currentRanking) := by
  rw [update_table_of_nonempty data selC selA h,
    numberRows_map DisplayRow.currentRanking
      (fun r => CellVal.nat r.currentRanking) (fun _ _ => rfl) _ 0,
    List.chain'_map]
  exact List.Pairwise.chain'
    (sorted_sortByCurrentRanking (get_filtered_data data selC selA))

/-- Witness for claim C3 on the sample table. -/
theorem output_sorted_by_currentRanking_witness :
    List.Chain' cellLE
      ((update_table exTable none none).map DisplayRow.currentRanking) :=
  output_sorted_by_currentRanking exTable none none (by decide)

/-- Claim C5: the `No.` cells of the output are exactly `1, 2, ..., N` in
output order (no gaps) when the filtered set is non-empty; in the sentinel
case the single `No.` cell is the string `"N/A"`. -/
theorem row_numbering_sequence (data : List Record)
    (selC selA : Option String) :
    (update_table data selC selA).map DisplayRow.no
        = (List.range (update_table data selC selA).length).map
            (fun k => CellVal.nat (k + 1))
      ∨ (get_filtered_data data selC selA = []
          ∧ (update_table data selC selA).map DisplayRow.no
              = [CellVal.str "N/A"]) := by
  by_cases h : get_filtered_data data selC selA = []
  · right
    rw [update_table_of_empty data selC selA h]
    exact ⟨h, rfl⟩
  · left
    rw [update_table_of_nonempty data selC selA h, numberRows_map_no,
      numberRows_length]
    exact List.map_congr_left fun k _ => congrArg CellVal.nat (by omega)

/-- Claim C6: in the non-empty case the `Tier` cells are exactly the sorted
records' tiers relabelled by the mapping 0 → Novice, 1 → Contributor,
2 → Expert, 3 → Master, 4 → Grandmaster, and any tier above 4 (such as 9)
passes through unchanged as a number. -/
theorem tier_relabeling (data : List Record) (selC selA : Option String)
    (n : Nat) (h : get_filtered_data data selC selA ≠ []) (hn : 4 < n) :
    (update_table data selC selA).map DisplayRow.tier
        = (sortByCurrentRanking (get_filtered_data data selC selA)).map
            (fun r => tierLabel r.tier)
      ∧ tierLabel 0 = CellVal.str "Novice"
      ∧ tierLabel 1 = CellVal.str "Contributor"
      ∧ tierLabel 2 = CellVal.str "Expert"
      ∧ tierLabel 3 = CellVal.str "Master"
      ∧ tierLabel 4 = CellVal.str "Grandmaster"
      ∧ tierLabel n = CellVal.nat n := by
  refine ⟨?_, rfl, rfl, rfl, rfl, rfl, ?_⟩
  · rw [update_table_of_nonempty data selC selA h]
    exact numberRows_map DisplayRow.tier (fun r => tierLabel r.tier)
      (fun _ _ => rfl) _ 0
  · obtain ⟨m, rfl⟩ : ∃ m, n = m + 5 := ⟨n - 5, by omega⟩
    rfl

/-- Witness for claim C6 on the sample table, with the out-of-range tier 9. -/
theorem tier_relabeling_witness :
    (update_table exTable none none).map DisplayRow.tier
        = (sortByCurrentRanking (get_filtered_data exTable none none)).map
            (fun r => tierLabel r.tier)
      ∧ tierLabel 9 = CellVal.nat 9 :=
  ⟨(tier_relabeling exTable none none 9 (by decide) (by decide)).1,
    (tier_relabeling exTable none none 9 (by decide) (by decide)).2.2.2.2.2.2⟩

/-- Claim C7: in the non-empty case each `Medals` cell is the single string
built by `medalsString` from the record's gold, silver and bronze counts
with each null count normalised to 0 (`fillna(0)`), the three counts in
fixed gold/silver/bronze order with fixed labels; in particular gold 3,
silver 0, bronze null renders the counts 3, 0, 0 in that order. -/
theorem medal_formatting (data : List Record) (selC selA : Option String)
    (h : get_filtered_data data selC selA ≠ []) :
    (update_table data selC selA).map DisplayRow.medals
        = (sortByCurrentRanking (get_filtered_data data selC selA)).map
            (fun r => CellVal.str
              (medalsString (r.totalGold.getD 0) (r.totalSilver.getD 0)
                (r.totalBronze.getD 0)))
      ∧ medalsString ((some 3 : Option Nat).getD 0)
            ((some 0 : Option Nat).getD 0) ((none : Option Nat).getD 0)
          = "🏅 3 🥈 0 🥉 0" := by
  refine ⟨?_, rfl⟩
  rw [update_table_of_nonempty data selC selA h]
  exact numberRows_map DisplayRow.medals _ (fun _ _ => rfl) _ 0

/-- Witness for claim C7 on the sample table (Alice has a null bronze
count). -/
theorem medal_formatting_witness :
    (update_table exTable none none).map DisplayRow.medals
        = (sortByCurrentRanking (get_filtered_data exTable none none)).map
            (fun r => CellVal.str
              (medalsString (r.totalGold.getD 0) (r.totalSilver.getD 0)
                (r.totalBronze.getD 0)))
      ∧ medalsString ((some 3 : Option Nat).getD 0)
            ((some 0 : Option Nat).getD 0) ((none : Option Nat).getD 0)
          = "🏅 3 🥈 0 🥉 0" :=
  medal_formatting exTable none none (by decide)

/-- Claim C8, counterexample: an achievement row carrying a `CurrentRanking`
but no `HighestRanking` is dropped by the ETL (`dropna` defaults to
`how='any'`), although the claim says a row with at least one ranking
present is retained. -/
theorem dropna_drops_row_with_one_ranking :
    achNoHighest.currentRanking.isSome = true
      ∧ load_process [uAlice] [achNoHighest] = [] :=
  ⟨rfl, rfl⟩

/-- Claim C8 as amended: an achievement row is dropped exactly when it
lacks at least one of the two ranking fields (it is retained only when both
`CurrentRanking` and `HighestRanking` are present); every produced record
comes from a retained achievement row joined to a user row on
`Id == UserId` and carries
`Profile = "https://www.kaggle.com/" + UserName`. -/
theorem etl_retention_join_profile (users : List UserRow)
    (achs : List AchievementRow) (a : AchievementRow) (r : Record)
    (hr : r ∈ load_process users achs) :
    (a ∈ dropnaRankings achs ↔
        a ∈ achs ∧ a.currentRanking.isSome = true
          ∧ a.highestRanking.isSome = true)
      ∧ r.profile = some ("https://www.kaggle.com/" ++ r.userName)
      ∧ ∃ u a2, u ∈ users ∧ a2 ∈ dropnaRankings achs ∧ a2.userId = u.id
          ∧ r = mkJoined u a2 := by
  have hex : ∃ u a2, u ∈ users ∧ a2 ∈ dropnaRankings achs ∧ a2.userId = u.id
      ∧ r = mkJoined u a2 := by
    simp only [load_process, process_data, List.mem_flatMap, List.mem_map,
      List.mem_filter, decide_eq_true_eq] at hr
    obtain ⟨u, hu, a2, ⟨ha2, hid⟩, hrm⟩ := hr
    exact ⟨u, a2, hu, ha2, hid, hrm.symm⟩
  refine ⟨?_, ?_, hex⟩
  · simp [dropnaRankings, List.mem_filter, and_assoc]
  · obtain ⟨u, a2, _, _, _, rfl⟩ := hex
    rfl

/-- Witness for the amended claim C8 on one user and one fully ranked
achievement row. -/
theorem etl_retention_join_profile_witness :
    (mkJoined uAlice achBoth).profile
      = some ("https://www.kaggle.com/" ++ (mkJoined uAlice achBoth).userName) :=
  (etl_retention_join_profile [uAlice] [achBoth] achBoth
    (mkJoined uAlice achBoth) (by decide)).2.1

/-- Claim C9: a session of arbitrarily many render invocations with
arbitrary filter selections leaves the loaded table unchanged, so the two
distinct-value enumerators return exactly what they returned right after
load. -/
theorem render_no_mutation (data : List Record)
    (sels : List (Option String × Option String)) :
    get_unique_countries (renderSession ⟨data⟩ sels).data
        = get_unique_countries data
      ∧ get_unique_achievement_types (renderSession ⟨data⟩ sels).data
          = get_unique_achievement_types data := by
  rw [renderSession_eq]
  exact ⟨rfl, rfl⟩

/-- Claim C10: a record with a null `Country` is excluded by any non-empty
country selection — it is not in the filtered set, and every output row is
either the sentinel or is built from a filtered record whose `Country`
equals the selected string. -/
theorem null_country_never_matches (data : List Record) (selA : Option String)
    (c : String) (r : Record) (hc : c ≠ "") (hr : r.country = none) :
    r ∉ get_filtered_data data (some c) selA
      ∧ ∀ row ∈ update_table data (some c) selA,
          row = sentinelRow
            ∨ ∃ i r2, r2 ∈ get_filtered_data data (some c) selA
                ∧ r2.country = some c ∧ row = mkDisplayRow i r2 := by
  constructor
  · intro hmem
    rcases ((mem_get_filtered_iff data (some c) selA r).1 hmem).2.1 with h | h | h
    · exact Option.noConfusion h
    · exact hc (Option.some.inj h)
    · rw [hr] at h
      exact Option.noConfusion h
  · intro row hrow
    by_cases hemp : get_filtered_data data (some c) selA = []
    · left
      rw [update_table_of_empty data (some c) selA hemp] at hrow
      simpa using hrow
    · right
      rw [update_table_of_nonempty data (some c) selA hemp] at hrow
      obtain ⟨j, r2, hr2, hrow⟩ := mem_numberRows hrow
      have hr2f : r2 ∈ get_filtered_data data (some c) selA :=
        mem_sortByCurrentRanking.1 hr2
      rcases ((mem_get_filtered_iff data (some c) selA r2).1 hr2f).2.1
        with h | h | h
      · exact Option.noConfusion h
      · exact absurd (Option.some.inj h) hc
      · exact ⟨j, r2, hr2f, h, hrow⟩

/-- Witness for claim C10: Bob has no country and is excluded once "US" is
selected. -/
theorem null_country_never_matches_witness :
    recBob ∉ get_filtered_data exTable (some "US") none :=
  (null_country_never_matches exTable none "US" recBob (by decide) rfl).1

end CountryRanking
